import Mathlib

/-!
Verification development for the jason-co-ecom backend
(`apps/api/app`): a shallow embedding in Lean 4 of the order-submission
flow (`routes/payment.py`), the order status helpers (`models/order.py`,
`routes/admin.py`), the notification preference resolver
(`models/notification_preferences.py`) and the notification dispatch
service (`services/notification_service.py`), together with theorems
settling the specification claims about them.

Modelling conventions:
* Python dicts read at a fixed set of keys become structures of `Option`
  fields; an absent key is `none`.  A dict that may be empty/falsy is an
  `Option` of such a structure, with `none` standing for both an absent
  and an empty (falsy) dict (an empty dict yields `None` on every `get`,
  so the two are observationally equal in the embedded code).
* Python truthiness of strings (`None` and `""` are falsy) is `strTruthy`.
* JSON preference documents of boolean toggles become association lists
  `List (String × Bool)`.
* Monetary values follow the source types: `Product.price` is an integer
  (cents, per the column comment), and the float arithmetic of
  `submit_order` (`tax = subtotal * 0.08`, additions) is embedded in `ℚ`.
* Timestamps (`datetime.utcnow()` results) are abstract instants `Nat`;
  a time of day is its number of seconds after midnight.
* Database sessions become explicit state records; a raised exception
  becomes an error value, and the route's `try/except` handlers become
  wrappers mapping those error values to the surfaced HTTP status.
-/

namespace JasonCo

/-! ## Python-semantics helpers -/

/-- Truthiness of an optional string: Python treats `None` and `""` as falsy. -/
def strTruthy : Option String → Bool
  | none => false
  | some s => s ≠ ""

/-- Python `a or b` on optional strings: keep `a` when it is truthy. -/
def pyOr (a b : Option String) : Option String :=
  match a with
  | some s => if s = "" then b else some s
  | none => b

/-- Split a character list on a separator, Python `str.split(sep)` style
(`"".split(":") = [""]`, separators at the ends yield empty pieces). -/
def splitChar (sep : Char) : List Char → List Char → List (List Char)
  | [], acc => [acc.reverse]
  | c :: cs, acc =>
    if c = sep then acc.reverse :: splitChar sep cs []
    else splitChar sep cs (c :: acc)

/-- Decimal value of a digit list. -/
def digitsToNat (ds : List Char) : Nat :=
  ds.foldl (fun a c => 10 * a + (c.toNat - 48)) 0

/-- Python `int(str)`: strip surrounding whitespace, allow one optional
sign, then require a nonempty run of decimal digits.  (Exotic forms such
as digit-group underscores or non-ASCII digits are not modelled; the
stored preference strings never contain them.) -/
def pyIntOfChars (cs : List Char) : Option Int :=
  let t := ((cs.dropWhile Char.isWhitespace).reverse.dropWhile Char.isWhitespace).reverse
  match t with
  | [] => none
  | '-' :: ds =>
    if ds ≠ [] ∧ ds.all Char.isDigit then some (-(digitsToNat ds : Int)) else none
  | '+' :: ds =>
    if ds ≠ [] ∧ ds.all Char.isDigit then some ((digitsToNat ds : Int)) else none
  | ds =>
    if ds.all Char.isDigit then some ((digitsToNat ds : Int)) else none

/-- Parse `"HH:MM"` the way `is_quiet_hours_active` does:
`start_hour, start_min = map(int, s.split(":"))` (exactly two pieces,
each a Python int) followed by `datetime.replace(hour=…, minute=…)`,
which raises `ValueError` unless `0 ≤ hour ≤ 23` and `0 ≤ minute ≤ 59`.
Any failure is reported as `none` (the caller catches the exception). -/
def parseClockTime (s : String) : Option (Nat × Nat) :=
  match splitChar ':' s.toList [] with
  | [hs, ms] =>
    match pyIntOfChars hs, pyIntOfChars ms with
    | some h, some m =>
      if 0 ≤ h ∧ h ≤ 23 ∧ 0 ≤ m ∧ m ≤ 59 then some (h.toNat, m.toNat) else none
    | _, _ => none
  | _ => none

/-! ## Notification preferences (`models/notification_preferences.py`) -/

/-- The quiet-hours JSON document (`quiet_hours` column): keys read by
`is_quiet_hours_active`.  The `timezone` key is never read by the
embedded code paths. -/
structure QuietHoursDict where
  enabled : Option Bool
  start_time : Option String
  end_time : Option String
deriving DecidableEq

/-- The four JSON preference columns `check_notification_allowed` can be
asked about (its `category` argument at every call site). -/
inductive PrefCategory
  | email_notifications
  | marketing_notifications
  | account_notifications
  | sms_notifications
deriving DecidableEq

/-- A `notification_preferences` row.  Each boolean-toggle JSON column is
an association list; `none` stands for a `NULL`/empty (falsy) column.
The `phone_number` string entry of the `sms_notifications` document is
carried separately (it is the only non-boolean entry read by the code,
in `get_sms_phone_number`). -/
structure PrefRow where
  email_notifications : Option (List (String × Bool))
  marketing_notifications : Option (List (String × Bool))
  account_notifications : Option (List (String × Bool))
  sms_notifications : Option (List (String × Bool))
  sms_phone_number : Option String
  quiet_hours : Option QuietHoursDict
deriving DecidableEq

/-- `NotificationPreferenceManager.DEFAULT_PREFERENCES`, category by
category (boolean toggles only; `phone_number` defaults to `""`, falsy). -/
def defaultPreferences : PrefCategory → List (String × Bool)
  | .email_notifications =>
    [("order_confirmations", true), ("order_updates", true),
     ("shipping_notifications", true), ("delivery_confirmations", true),
     ("payment_receipts", true), ("returns_refunds", true)]
  | .marketing_notifications =>
    [("new_products", false), ("sales_promotions", false),
     ("exclusive_offers", true), ("collection_launches", false),
     ("wishlist_updates", true), ("price_drops", true), ("abandoned_cart", true)]
  | .account_notifications =>
    [("security_alerts", true), ("password_changes", true),
     ("profile_updates", false), ("privacy_updates", true)]
  | .sms_notifications =>
    [("enabled", false), ("order_updates", false), ("shipping_alerts", false),
     ("delivery_notifications", false), ("security_alerts", true)]

/-- `NotificationPreferenceManager.REQUIRED_NOTIFICATIONS`: the fixed
allow-list of (category, key) pairs that users must not be able to
disable. -/
def requiredNotifications : List (PrefCategory × List String) :=
  [(.email_notifications, ["order_confirmations", "payment_receipts"]),
   (.account_notifications, ["security_alerts", "password_changes"])]

/-- Membership of a (category, key) pair in the required allow-list. -/
def isRequiredPair (cat : PrefCategory) (key : String) : Bool :=
  (requiredNotifications.lookup cat).getD [] |>.contains key

/-- `getattr(preferences, category, {})` for the four JSON columns. -/
def categoryPrefs (p : PrefRow) : PrefCategory → Option (List (String × Bool))
  | .email_notifications => p.email_notifications
  | .marketing_notifications => p.marketing_notifications
  | .account_notifications => p.account_notifications
  | .sms_notifications => p.sms_notifications

/-- Python truthiness of a dict value: `None` and `{}` are falsy. -/
def truthyDict (d : Option (List (String × Bool))) : Option (List (String × Bool)) :=
  match d with
  | none => none
  | some [] => none
  | some l => some l

/-- The stored preference rows, keyed by `user_id` (the table has a
unique index on `user_id`, so a lookup models `.filter(...).first()`). -/
abbrev PrefTable := List (Nat × PrefRow)

/-- `NotificationPreferenceManager.check_notification_allowed`:
no row → default for (category, key) with `.get(type, False)`;
row present with a falsy category document → same default;
row present with a truthy category document → `.get(type, False)` on the
stored document (no fallback to per-key defaults, and the required
allow-list is never consulted here). -/
def check_notification_allowed (prefs : PrefTable) (user_id : Nat)
    (notification_type : String) (category : PrefCategory) : Bool :=
  match prefs.lookup user_id with
  | none => ((defaultPreferences category).lookup notification_type).getD false
  | some p =>
    match truthyDict (categoryPrefs p category) with
    | none => ((defaultPreferences category).lookup notification_type).getD false
    | some d => (d.lookup notification_type).getD false

/-- `NotificationPreferenceManager.is_quiet_hours_active` at a current
time of day given in seconds after midnight.  Missing row, falsy
`quiet_hours` document or falsy `enabled` flag → `false`; the stored
strings are parsed per `parseClockTime`, any failure being caught and
reported as `false`; a window with `start > end` spans midnight. -/
def is_quiet_hours_active (prefs : PrefTable) (user_id : Nat)
    (nowSecs : Nat) : Bool :=
  match prefs.lookup user_id with
  | none => false
  | some p =>
    match p.quiet_hours with
    | none => false
    | some q =>
      if !(q.enabled.getD false) then false
      else
        match parseClockTime (q.start_time.getD "22:00"),
              parseClockTime (q.end_time.getD "08:00") with
        | some (sh, sm), some (eh, em) =>
          let s := sh * 3600 + sm * 60
          let e := eh * 3600 + em * 60
          if e < s then decide (s ≤ nowSecs) || decide (nowSecs ≤ e)
          else decide (s ≤ nowSecs) && decide (nowSecs ≤ e)
        | _, _ => false

/-- `NotificationPreferenceManager.get_sms_phone_number`: the phone
number when the row exists, the `sms_notifications` document is truthy
with a truthy `enabled` entry, and the stored phone string is truthy. -/
def get_sms_phone_number (prefs : PrefTable) (user_id : Nat) : Option String :=
  match prefs.lookup user_id with
  | none => none
  | some p =>
    match truthyDict p.sms_notifications with
    | none => none
    | some d =>
      if (d.lookup "enabled").getD false ∧ strTruthy p.sms_phone_number then
        p.sms_phone_number
      else none

/-! ## Notification dispatch (`services/notification_service.py`) -/

/-- `NotificationType` enum. -/
inductive NotificationType
  | order_confirmation
  | order_update
  | shipping_notification
  | delivery_confirmation
  | payment_receipt
  | return_refund
  | new_product
  | sales_promotion
  | exclusive_offer
  | collection_launch
  | wishlist_update
  | price_drop
  | abandoned_cart
  | security_alert
  | password_change
  | profile_update
  | privacy_update
deriving DecidableEq, Fintype

/-- `NotificationChannel` enum. -/
inductive NotificationChannel
  | email
  | sms
  | push
  | in_app
deriving DecidableEq

/-- `NotificationPriority` enum. -/
inductive NotificationPriority
  | low
  | medium
  | high
  | critical
deriving DecidableEq

/-- One entry of `NotificationService.notification_mapping`.  The
`required` field models `config.get("required", False)`: `false` when
the source dict has no `"required"` key. -/
structure NotifConfig where
  category : PrefCategory
  key : String
  channels : List NotificationChannel
  priority : NotificationPriority
  required : Bool
deriving DecidableEq

/-- `NotificationService.notification_mapping`, verbatim from the
constructor of `NotificationService`. -/
def notificationMapping : NotificationType → NotifConfig
  | .order_confirmation =>
    ⟨.email_notifications, "order_confirmations",
     [.email, .sms], .high, true⟩
  | .order_update =>
    ⟨.email_notifications, "order_updates", [.email, .sms], .medium, false⟩
  | .shipping_notification =>
    ⟨.email_notifications, "shipping_notifications", [.email, .sms], .medium, false⟩
  | .delivery_confirmation =>
    ⟨.email_notifications, "delivery_confirmations", [.email, .sms], .medium, false⟩
  | .payment_receipt =>
    ⟨.email_notifications, "payment_receipts", [.email], .high, true⟩
  | .return_refund =>
    ⟨.email_notifications, "returns_refunds", [.email], .medium, false⟩
  | .new_product =>
    ⟨.marketing_notifications, "new_products", [.email], .low, false⟩
  | .sales_promotion =>
    ⟨.marketing_notifications, "sales_promotions", [.email], .low, false⟩
  | .exclusive_offer =>
    ⟨.marketing_notifications, "exclusive_offers", [.email], .medium, false⟩
  | .collection_launch =>
    ⟨.marketing_notifications, "collection_launches", [.email], .low, false⟩
  | .wishlist_update =>
    ⟨.marketing_notifications, "wishlist_updates", [.email], .low, false⟩
  | .price_drop =>
    ⟨.marketing_notifications, "price_drops", [.email], .medium, false⟩
  | .abandoned_cart =>
    ⟨.marketing_notifications, "abandoned_cart", [.email], .low, false⟩
  | .security_alert =>
    ⟨.account_notifications, "security_alerts", [.email, .sms], .critical, true⟩
  | .password_change =>
    ⟨.account_notifications, "password_changes", [.email], .high, true⟩
  | .profile_update =>
    ⟨.account_notifications, "profile_updates", [.email], .low, false⟩
  | .privacy_update =>
    ⟨.account_notifications, "privacy_updates", [.email], .medium, false⟩

/-- Left-to-right non-overlapping replacement of `pat` by `repl`
(Python `str.replace`), with a structural fuel argument equal to the
string length (each step consumes at least one character). -/
def listReplaceFuel (pat repl : List Char) : Nat → List Char → List Char
  | _, [] => []
  | 0, s => s
  | fuel + 1, c :: cs =>
    if pat ≠ [] ∧ pat.isPrefixOf (c :: cs) then
      repl ++ listReplaceFuel pat repl fuel ((c :: cs).drop pat.length)
    else c :: listReplaceFuel pat repl fuel cs

/-- Python `s.replace(pat, repl)` (for the nonempty patterns used here). -/
def pyReplace (s pat repl : String) : String :=
  (listReplaceFuel pat.toList repl.toList s.toList.length s.toList).asString

/-- The SMS preference key derived in `_send_sms_notification`:
`key.replace("_notifications", "_alerts").replace("_confirmations", "_notifications")`. -/
def smsKeyOf (cfg : NotifConfig) : String :=
  pyReplace (pyReplace cfg.key "_notifications" "_alerts") "_confirmations" "_notifications"

/-- A `users` row as read by the notification service. -/
structure NotifUser where
  id : Nat
  email : String
  first_name : Option String
  last_name : Option String
deriving DecidableEq

/-- The database as seen by `NotificationService.send_notification`. -/
structure NotifDB where
  users : List NotifUser
  prefs : PrefTable
deriving DecidableEq

/-- Per-channel entry of the result map returned by `send_notification`. -/
inductive ChannelResult
  | delivered (info : String)
  | failed (msg : String)
  | skippedChan (msg : String)
  | smsPlaceholder (phone : String)
  | notImplemented
deriving DecidableEq

/-- Return value of `send_notification`.  The function always returns a
dictionary; a raised exception would be a missing constructor here, and
the embedding shows none can escape. -/
inductive SendOutcome
  | errorResult (msg : String)
  | skipped (msg : String)
  | delayed (msg : String)
  | sent (results : List (String × ChannelResult))
deriving DecidableEq

/-- `NotificationService._send_email_notification`: the template lookup
is total over the enum; the provider call (`send_notification_email`)
either returns a result or raises, which the function's own
`try/except` turns into an error dictionary. -/
def sendEmailNotification (emailSend : Except String String) : ChannelResult :=
  match emailSend with
  | .ok info => .delivered info
  | .error e => .failed ("Email delivery failed: " ++ e)

/-- `NotificationService._send_sms_notification` (a placeholder channel:
no provider call is made, so its failure modes are the skip paths). -/
def sendSmsNotification (db : NotifDB) (u : NotifUser)
    (t : NotificationType) : ChannelResult :=
  match get_sms_phone_number db.prefs u.id with
  | none => .skippedChan "SMS not enabled or no phone number"
  | some phone =>
    let cfg := notificationMapping t
    if cfg.category = .email_notifications then
      if check_notification_allowed db.prefs u.id (smsKeyOf cfg) .sms_notifications then
        .smsPlaceholder phone
      else .skippedChan "SMS notifications disabled for this type"
    else .skippedChan "SMS not supported for this notification type"

/-- One iteration of the channel loop of `send_notification`, with its
per-channel `try/except`: a failure inside a channel becomes that
channel's entry of the result map and aborts nothing else. -/
def processChannel (db : NotifDB) (u : NotifUser) (t : NotificationType)
    (emailSend : Except String String) :
    NotificationChannel → String × ChannelResult
  | .email => ("email", sendEmailNotification emailSend)
  | .sms => ("sms", sendSmsNotification db u t)
  | .push => ("push", .notImplemented)
  | .in_app => ("in_app", .notImplemented)

/-- Python `force_channels or config["channels"]`: `None` and `[]` are
falsy. -/
def channelsToUse (force_channels : Option (List NotificationChannel))
    (cfg : NotifConfig) : List NotificationChannel :=
  match force_channels with
  | some (c :: cs) => c :: cs
  | _ => cfg.channels

/-- `NotificationService.send_notification`.  `emailSend` stands for the
outcome of the email provider call (`.error` = the provider raised);
`nowSecs` is the current time of day used by the quiet-hours check. -/
def send_notification (db : NotifDB) (user_id : Nat) (t : NotificationType)
    (override_preferences : Bool)
    (force_channels : Option (List NotificationChannel))
    (nowSecs : Nat) (emailSend : Except String String) : SendOutcome :=
  match db.users.find? (fun u => u.id == user_id) with
  | none => .errorResult "User not found"
  | some u =>
    let cfg := notificationMapping t
    let gate : Option SendOutcome :=
      if ¬override_preferences ∧ ¬cfg.required then
        if ¬check_notification_allowed db.prefs user_id cfg.key cfg.category then
          some (.skipped "User preferences disabled this notification")
        else if is_quiet_hours_active db.prefs user_id nowSecs ∧
            cfg.priority ≠ .high ∧ cfg.priority ≠ .critical then
          some (.delayed "Notification delayed due to quiet hours")
        else none
      else none
    match gate with
    | some r => r
    | none =>
      .sent ((channelsToUse force_channels cfg).map (processChannel db u t emailSend))

/-! ## Orders and the submission flow (`routes/payment.py`, `models/order.py`) -/

/-- A `products` row, restricted to the columns the submission flow
reads.  `price` is an integer (cents) per the column definition
`Column(Integer, comment='Price in cents')`. -/
structure Product where
  id : Nat
  name : String
  price : Int
  sku : Option String
  description : Option String
  image_url : Option String
deriving DecidableEq

/-- A `cart_items` row.  After migration `5d98ea31c05e`, `user_id` is
the integer `users.id` (the `Column(String, ...)` annotation in
`models/cart.py` is stale), matching the `CartItem.user_id == db_user.id`
filters in the routes.  `product` is the ORM relationship. -/
structure CartItem where
  id : Nat
  user_id : Nat
  product_id : Nat
  quantity : Nat
  product : Product
deriving DecidableEq

/-- An address dict from the checkout payload, restricted to the keys
the flow reads. -/
structure Addr where
  first_name : Option String
  last_name : Option String
  phone : Option String
  email : Option String
  email_address : Option String
deriving DecidableEq

/-- The `shipping_method` dict: keys read are `price` (default `0`),
`name` and `id`. -/
structure ShippingMethod where
  price : Option ℚ
  name : Option String
  method_id : Option String
deriving DecidableEq

/-- The `gift_options` dict. -/
structure GiftOptions where
  is_gift : Option Bool
  message : Option String
  wrapping : Option Bool
deriving DecidableEq

/-- `OrderSubmissionRequest` (pydantic model).  `shipping_address` is a
required dict but may be empty, hence `Option` (an empty dict is falsy
and yields `None` on every `get`, which `none` also models). -/
structure OrderSubmissionRequest where
  shipping_address : Option Addr
  billing_address : Option Addr
  shipping_method : ShippingMethod
  gift_options : Option GiftOptions
  order_notes : Option String
  payment_intent_id : String
deriving DecidableEq

/-- The decoded Clerk token payload, restricted to the keys the email
fallback reads.  `email_addresses` is the list of entries, each carrying
its optional `email_address` field. -/
structure ClerkUser where
  sub : String
  email : Option String
  email_address : Option String
  emailAddress : Option String
  primaryEmailAddress : Option String
  email_addresses : List (Option String)
deriving DecidableEq

/-- A `users` row as read by the payment routes (`email` is a non-null
column; an absent address in practice is the empty string, which is
falsy). -/
structure DUser where
  id : Nat
  clerk_id : String
  email : String
deriving DecidableEq

/-- An `orders` row, restricted to the columns the embedded flows touch. -/
structure Order where
  id : Nat
  order_number : String
  user_id : Option String
  total_price : ℚ
  status : String
  created_at : Nat
  customer_first_name : Option String
  customer_last_name : Option String
  customer_email : Option String
  customer_phone : Option String
  payment_status : String
  subtotal : ℚ
  tax_amount : ℚ
  shipping_amount : ℚ
  discount_amount : ℚ
  currency : String
  shipping_address : Option Addr
  billing_address : Option Addr
  shipping_method_id : Option String
  shipping_method_name : Option String
  stripe_payment_intent_id : Option String
  order_notes : Option String
  is_gift : Bool
  gift_message : Option String
  gift_wrapping : Bool
  updated_at : Nat
  shipped_at : Option Nat
  delivered_at : Option Nat
  confirmation_email_sent : Bool
deriving DecidableEq

/-- An `order_items` row, restricted to the columns `submit_order` sets. -/
structure OrderItem where
  order_id : Nat
  product_id : Nat
  product_name : String
  unit_price : Int
  quantity : Nat
  line_total : Int
  product_sku : Option String
  product_description : Option String
  product_image_url : Option String
  product_category : Option String
  custom_options : Option String
  item_status : String
  item_created_at : Nat
deriving DecidableEq

/-- The database state the submission flow reads and writes.
`next_order_id` models the `orders` primary-key sequence consulted by
`db.flush()`. -/
structure DBState where
  users : List DUser
  orders : List Order
  order_items : List OrderItem
  cart_items : List CartItem
  next_order_id : Nat
deriving DecidableEq

/-- Python `s[-8:]` then `.upper()`. -/
def takeLastUpper8 (s : String) : String :=
  (((s.toList.reverse.take 8).reverse).map Char.toUpper).asString

/-- `order_number = f"ORD-..."` built from the payment-intent id. -/
def orderNumberOf (payment_intent_id : String) : String :=
  "ORD-" ++ takeLastUpper8 payment_intent_id

/-- The identity-provider email: the five-way `or` chain over the Clerk
token payload at lines 157-163 of `routes/payment.py`.  (The `if user:`
guard always holds: a verified token payload is a non-empty dict.) -/
def clerkIdentityEmail (u : ClerkUser) : Option String :=
  pyOr u.email (pyOr u.email_address (pyOr u.emailAddress
    (pyOr u.primaryEmailAddress
      (match u.email_addresses with
       | [] => none
       | d :: _ => d))))

/-- The customer-email resolution of `submit_order`, in its sequential
assign-then-recheck form: identity chain, then the database user's
email, then `shipping.get('email') or shipping.get('email_address')`
(only when the shipping dict is truthy), then the same on billing. -/
def resolveCustomerEmail (clerk : ClerkUser) (dbEmail : String)
    (shipping billing : Option Addr) : Option String :=
  let c0 := clerkIdentityEmail clerk
  let c1 := if strTruthy c0 then c0 else some dbEmail
  let c2 :=
    if strTruthy c1 then c1
    else
      match shipping with
      | none => c1
      | some a => pyOr a.email a.email_address
  if strTruthy c2 then c2
  else
    match billing with
    | none => c2
    | some a => pyOr a.email a.email_address

/-- First truthy element of a chain, else `none`.  Used to phrase the
spec's reading of the fallback chain (authenticated-identity email →
db user email → shipping email → billing email → none) for comparison
with `resolveCustomerEmail`. -/
def firstTruthy : List (Option String) → Option String
  | [] => none
  | a :: rest => if strTruthy a then a else firstTruthy rest

/-- The email a truthy address dict contributes to the chain. -/
def addrChainEmail : Option Addr → Option String
  | none => none
  | some a => pyOr a.email a.email_address

/-- The errors the body of `submit_order` can raise.  The first three
are `HTTPException`s raised with an explicit status; `integrityError`
is the `IntegrityError` raised by `db.flush()` when the new row
violates the unique index on `orders.order_number`
(`unique=True` at `models/order.py` line 41, created in the database as
`idx_orders_order_number` by `migration_add_order_fields.py` line 42);
`commitFailed` stands for any other database error raised by the
transactional commit. -/
inductive SubmitError
  | userNotFound
  | paymentNotSucceeded
  | emptyCart
  | integrityError
  | commitFailed
deriving DecidableEq

/-- The status carried by the `HTTPException` as raised inside the
handler body (before the route's exception handlers see it). -/
def raisedStatus : SubmitError → Option Nat
  | .userNotFound => some 404
  | .paymentNotSucceeded => some 400
  | .emptyCart => some 400
  | .integrityError => none
  | .commitFailed => none

/-- The JSON body returned by a successful `submit_order`, restricted
to the fields relevant here.  `customer_email` keeps the raw resolved
value (the route renders a falsy one as the string "Not provided"). -/
structure SubmitResponse where
  order_number : String
  order_id : Nat
  total : ℚ
  confirmation_email_sent : Bool
  customer_email : Option String
deriving DecidableEq

/-- The submitting user's cart rows:
`db.query(CartItem).filter(CartItem.user_id == db_user.id).all()`. -/
def cartOf (db : DBState) (uid : Nat) : List CartItem :=
  db.cart_items.filter (fun ci => ci.user_id == uid)

/-- `subtotal = sum(item.product.price * item.quantity for item in cart_items)`. -/
def cartSubtotal (cart : List CartItem) : ℚ :=
  (((cart.map (fun ci => ci.product.price * (ci.quantity : Int))).sum : Int) : ℚ)

/-- The Order row constructed at lines 192-234 of `routes/payment.py`,
including the final value of `confirmation_email_sent`: created `False`,
set `True` exactly when a truthy email was resolved and scheduling did
not raise, reset `False` by the `except` at line 333 otherwise, and
committed by the second `db.commit()`. -/
def submittedOrder (req : OrderSubmissionRequest) (clerk : ClerkUser)
    (dbEmail : String) (scheduleOk : Bool) (now oid : Nat)
    (cart : List CartItem) : Order :=
  let subtotal := cartSubtotal cart
  let tax : ℚ := subtotal * (8 / 100)
  let shipping_cost : ℚ := (req.shipping_method.price).getD 0
  let customer_email :=
    resolveCustomerEmail clerk dbEmail req.shipping_address req.billing_address
  { id := oid
    order_number := orderNumberOf req.payment_intent_id
    user_id := some clerk.sub
    total_price := subtotal + tax + shipping_cost
    status := "confirmed"
    created_at := now
    customer_first_name := req.shipping_address.bind (fun a => a.first_name)
    customer_last_name := req.shipping_address.bind (fun a => a.last_name)
    customer_email := customer_email
    customer_phone := req.shipping_address.bind (fun a => a.phone)
    payment_status := "completed"
    subtotal := subtotal
    tax_amount := tax
    shipping_amount := shipping_cost
    discount_amount := 0
    currency := "USD"
    shipping_address := req.shipping_address
    billing_address :=
      match req.billing_address with
      | some b => some b
      | none => req.shipping_address
    shipping_method_id := req.shipping_method.method_id
    shipping_method_name := req.shipping_method.name
    stripe_payment_intent_id := some req.payment_intent_id
    order_notes := req.order_notes
    is_gift :=
      match req.gift_options with
      | some g => g.is_gift.getD false
      | none => false
    gift_message := req.gift_options.bind (fun g => g.message)
    gift_wrapping :=
      match req.gift_options with
      | some g => g.wrapping.getD false
      | none => false
    updated_at := now
    shipped_at := none
    delivered_at := none
    confirmation_email_sent := strTruthy customer_email && scheduleOk }

/-- The OrderItem rows added by the loop at lines 240-261, one per cart
row. -/
def submittedItems (cart : List CartItem) (oid now : Nat) : List OrderItem :=
  cart.map (fun ci =>
    { order_id := oid
      product_id := ci.product_id
      product_name := ci.product.name
      unit_price := ci.product.price
      quantity := ci.quantity
      line_total := ci.product.price * (ci.quantity : Int)
      product_sku := ci.product.sku
      product_description := ci.product.description
      product_image_url := ci.product.image_url
      -- Product has no `category` attribute (the legacy column is mapped
      -- as `category_string`), so `getattr(..., 'category', None)` yields
      -- the default.
      product_category := none
      -- CartItem has no `custom_options` attribute either.
      custom_options := none
      item_status := "pending"
      item_created_at := now })

/-- The body of `submit_order` (`routes/payment.py` lines 117-354), up
to but not including its `except` handlers.

Inputs beyond the request: `intentStatus` is
`stripe.PaymentIntent.retrieve(request.payment_intent_id).status`;
`commitOk` tells whether the transactional `db.commit()` of the
Order + OrderItems + cart deletion succeeds (failure injection for the
rollback property); `scheduleOk` tells whether preparing and scheduling
the confirmation email (the inner `try` at lines 275-332) runs without
raising; `now` is `datetime.utcnow()`.

The `db.flush()` at line 237 is not free to succeed: `order_number`
is a pure function of the payment-intent id, and the unique index on
`orders.order_number` (`models/order.py` line 41,
`idx_orders_order_number`) makes the flush raise `IntegrityError`
whenever an Order row with that `order_number` already exists — the
whole transaction then rolls back before the cart deletion is reached.

The response echoes the values computed for the order (`order_number`,
`order.id` after flush, `total`, the scheduling flag, the resolved
email).  Float arithmetic (`tax = subtotal * 0.08`) is embedded in `ℚ`. -/
def submitOrderCore (req : OrderSubmissionRequest) (clerk : ClerkUser)
    (intentStatus : String) (commitOk scheduleOk : Bool) (now : Nat)
    (db : DBState) : Except SubmitError (SubmitResponse × DBState) :=
  match db.users.find? (fun u => u.clerk_id == clerk.sub) with
  | none => .error .userNotFound
  | some db_user =>
    if intentStatus ≠ "succeeded" then .error .paymentNotSucceeded
    else
      if (cartOf db db_user.id).isEmpty then .error .emptyCart
      else if db.orders.any
          (fun o => o.order_number == orderNumberOf req.payment_intent_id) then
        .error .integrityError
      else if ¬commitOk then .error .commitFailed
      else
        let order := submittedOrder req clerk db_user.email scheduleOk now
          db.next_order_id (cartOf db db_user.id)
        .ok ({ order_number := order.order_number
               order_id := order.id
               total := order.total_price
               confirmation_email_sent := order.confirmation_email_sent
               customer_email := order.customer_email },
             { users := db.users
               orders := db.orders ++ [order]
               order_items := db.order_items ++
                 submittedItems (cartOf db db_user.id) db.next_order_id now
               cart_items := db.cart_items.filter (fun ci => ¬(ci.user_id == db_user.id))
               next_order_id := db.next_order_id + 1 })

/-- The outcome of the route as surfaced over HTTP. -/
inductive SubmitOutcome
  | ok (resp : SubmitResponse) (db : DBState)
  | httpError (status : Nat) (db : DBState)
deriving DecidableEq

/-- The route `POST /payment/submit-order` as surfaced to the client.
FastAPI's `HTTPException` subclasses `Exception`, and `submit_order`
has no `except HTTPException: raise` clause (unlike `get_order`), so
every error raised inside the body — including the 400s for an
unconfirmed payment or an empty cart and the 404 for a missing user —
is caught by the route's `except Exception` handler, which rolls the
session back and raises `HTTPException(500, "Order submission failed:
...")`.  (`stripe.error.StripeError` would surface as 400, but intent
retrieval is given here by its result `intentStatus`.) -/
def submit_order (req : OrderSubmissionRequest) (clerk : ClerkUser)
    (intentStatus : String) (commitOk scheduleOk : Bool) (now : Nat)
    (db : DBState) : SubmitOutcome :=
  match submitOrderCore req clerk intentStatus commitOk scheduleOk now db with
  | .ok (resp, db') => .ok resp db'
  | .error _ => .httpError 500 db

/-- Orders with a given `stripe_payment_intent_id` in a state. -/
def ordersWithIntent (db : DBState) (pid : String) : List Order :=
  db.orders.filter (fun o => o.stripe_payment_intent_id == some pid)

/-! ## Order status transitions (`models/order.py`, `routes/admin.py`) -/

/-- An `order_status_history` row. -/
structure StatusHistoryRow where
  order_id : Nat
  from_status : String
  to_status : String
  changed_by : String
  change_reason : Option String
  created_at : Nat
deriving DecidableEq

/-- The order-side state the status-update helpers touch. -/
structure OrderTable where
  orders : List Order
  history : List StatusHistoryRow
deriving DecidableEq

/-- In-place mutation of the first matching row (the ORM mutates the
unique row found by primary key). -/
def listUpdateFirst {α : Type} (p : α → Bool) (f : α → α) : List α → List α
  | [] => []
  | x :: xs => if p x then f x :: xs else x :: listUpdateFirst p f xs

/-- `models/order.py update_order_status`: on an actual change it
appends a history row, writes the new status, stamps `updated_at`, and
stamps `shipped_at` on entering `"shipped"` and `delivered_at` on
entering `"delivered"` (the `OrderStatus` string-enum members compare
equal to their values); when the status is unchanged or the order is
missing, nothing is written. -/
def update_order_status (t : OrderTable) (order_id : Nat)
    (new_status : String) (changed_by : String) (reason : Option String)
    (now : Nat) : OrderTable × Option Order :=
  match t.orders.find? (fun o => o.id == order_id) with
  | none => (t, none)
  | some o =>
    if o.status ≠ new_status then
      let o' : Order :=
        { o with
          status := new_status
          updated_at := now
          shipped_at := if new_status = "shipped" then some now else o.shipped_at
          delivered_at := if new_status = "delivered" then some now else o.delivered_at }
      ({ orders := listUpdateFirst (fun x => x.id == order_id) (fun _ => o') t.orders
         history := t.history ++
           [{ order_id := order_id
              from_status := o.status
              to_status := new_status
              changed_by := changed_by
              change_reason := reason
              created_at := now }] }, some o')
    else (t, some o)

/-- Outcome of the admin status PATCH. -/
inductive AdminUpdateOutcome
  | ok (old_status new_status : String) (t : OrderTable)
  | notFound (t : OrderTable)
deriving DecidableEq

/-- `routes/admin.py` `PATCH /admin/orders/:order_id`
(`update_order_status` route, lines 74-116): writes the new status and
`updated_at`, commits, and fires the status notification best-effort
(its failure is caught and does not affect the route's outcome).  It
stamps neither `shipped_at` nor `delivered_at` and appends no history
row. -/
def admin_update_order_status (t : OrderTable) (order_id : Nat)
    (status : String) (now : Nat) : AdminUpdateOutcome :=
  match t.orders.find? (fun o => o.id == order_id) with
  | none => .notFound t
  | some o =>
    .ok o.status status
      { t with
        orders := listUpdateFirst (fun x => x.id == order_id)
          (fun _ => { o with status := status, updated_at := now }) t.orders }

/-! ## General lemmas about the submission flow -/

/-- The truthy content of an optional string (`none` when falsy). -/
def truthyVal (o : Option String) : Option String :=
  if strTruthy o then o else none

lemma submitOrderCore_ok_shape (req : OrderSubmissionRequest) (clerk : ClerkUser)
    (scheduleOk : Bool) (now : Nat) (db : DBState) (u : DUser)
    (hu : db.users.find? (fun v => v.clerk_id == clerk.sub) = some u)
    (hc : (cartOf db u.id).isEmpty = false)
    (hn : db.orders.any
      (fun o => o.order_number == orderNumberOf req.payment_intent_id) = false) :
    submitOrderCore req clerk "succeeded" true scheduleOk now db =
      .ok ({ order_number :=
               (submittedOrder req clerk u.email scheduleOk now db.next_order_id
                 (cartOf db u.id)).order_number
             order_id :=
               (submittedOrder req clerk u.email scheduleOk now db.next_order_id
                 (cartOf db u.id)).id
             total :=
               (submittedOrder req clerk u.email scheduleOk now db.next_order_id
                 (cartOf db u.id)).total_price
             confirmation_email_sent :=
               (submittedOrder req clerk u.email scheduleOk now db.next_order_id
                 (cartOf db u.id)).confirmation_email_sent
             customer_email :=
               (submittedOrder req clerk u.email scheduleOk now db.next_order_id
                 (cartOf db u.id)).customer_email },
           { users := db.users
             orders := db.orders ++
               [submittedOrder req clerk u.email scheduleOk now db.next_order_id
                 (cartOf db u.id)]
             order_items := db.order_items ++
               submittedItems (cartOf db u.id) db.next_order_id now
             cart_items := db.cart_items.filter (fun ci => ¬(ci.user_id == u.id))
             next_order_id := db.next_order_id + 1 }) := by
  unfold submitOrderCore
  rw [hu]
  simp [hc, hn]

lemma submit_order_ok_core (req : OrderSubmissionRequest) (clerk : ClerkUser)
    (intentStatus : String) (commitOk scheduleOk : Bool) (now : Nat)
    (db : DBState) (resp : SubmitResponse) (s' : DBState)
    (h : submit_order req clerk intentStatus commitOk scheduleOk now db = .ok resp s') :
    submitOrderCore req clerk intentStatus commitOk scheduleOk now db =
      .ok (resp, s') := by
  unfold submit_order at h
  cases hc : submitOrderCore req clerk intentStatus commitOk scheduleOk now db with
  | error e => rw [hc] at h; simp at h
  | ok p =>
    obtain ⟨r, s⟩ := p
    rw [hc] at h
    simp only [SubmitOutcome.ok.injEq] at h
    obtain ⟨h1, h2⟩ := h
    rw [h1, h2]

lemma submit_order_ok_status (req : OrderSubmissionRequest) (clerk : ClerkUser)
    (intentStatus : String) (commitOk scheduleOk : Bool) (now : Nat)
    (db : DBState) (resp : SubmitResponse) (s' : DBState)
    (h : submit_order req clerk intentStatus commitOk scheduleOk now db = .ok resp s') :
    intentStatus = "succeeded" := by
  have hc := submit_order_ok_core _ _ _ _ _ _ _ _ _ h
  by_contra hne
  unfold submitOrderCore at hc
  cases hfind : db.users.find? (fun v => v.clerk_id == clerk.sub) with
  | none => rw [hfind] at hc; simp at hc
  | some u => rw [hfind] at hc; simp [hne] at hc

lemma submit_order_ok_cart_nonempty (req : OrderSubmissionRequest) (clerk : ClerkUser)
    (intentStatus : String) (commitOk scheduleOk : Bool) (now : Nat)
    (db : DBState) (resp : SubmitResponse) (s' : DBState) (u : DUser)
    (hu : db.users.find? (fun v => v.clerk_id == clerk.sub) = some u)
    (h : submit_order req clerk intentStatus commitOk scheduleOk now db = .ok resp s') :
    (cartOf db u.id).isEmpty = false := by
  have hc := submit_order_ok_core _ _ _ _ _ _ _ _ _ h
  by_contra hne
  simp only [Bool.not_eq_false] at hne
  unfold submitOrderCore at hc
  rw [hu] at hc
  by_cases hst : intentStatus = "succeeded"
  · simp [hst, hne] at hc
  · simp [hst] at hc

lemma submit_order_ok_commit (req : OrderSubmissionRequest) (clerk : ClerkUser)
    (intentStatus : String) (commitOk scheduleOk : Bool) (now : Nat)
    (db : DBState) (resp : SubmitResponse) (s' : DBState)
    (h : submit_order req clerk intentStatus commitOk scheduleOk now db = .ok resp s') :
    commitOk = true := by
  have hc := submit_order_ok_core _ _ _ _ _ _ _ _ _ h
  by_contra hne
  simp only [Bool.not_eq_true] at hne
  unfold submitOrderCore at hc
  cases hfind : db.users.find? (fun v => v.clerk_id == clerk.sub) with
  | none => rw [hfind] at hc; simp at hc
  | some u =>
    rw [hfind] at hc
    by_cases hst : intentStatus = "succeeded"
    · by_cases hempty : (cartOf db u.id).isEmpty <;>
        by_cases hdup : db.orders.any
          (fun o => o.order_number == orderNumberOf req.payment_intent_id) <;>
        simp [hst, hne, hempty, hdup] at hc
    · simp [hst] at hc

lemma submit_order_ok_no_dup (req : OrderSubmissionRequest) (clerk : ClerkUser)
    (intentStatus : String) (commitOk scheduleOk : Bool) (now : Nat)
    (db : DBState) (resp : SubmitResponse) (s' : DBState)
    (h : submit_order req clerk intentStatus commitOk scheduleOk now db = .ok resp s') :
    db.orders.any
      (fun o => o.order_number == orderNumberOf req.payment_intent_id) = false := by
  have hc := submit_order_ok_core _ _ _ _ _ _ _ _ _ h
  by_contra hne
  simp only [Bool.not_eq_false] at hne
  unfold submitOrderCore at hc
  cases hfind : db.users.find? (fun v => v.clerk_id == clerk.sub) with
  | none => rw [hfind] at hc; simp at hc
  | some u =>
    rw [hfind] at hc
    by_cases hst : intentStatus = "succeeded"
    · by_cases hempty : (cartOf db u.id).isEmpty <;>
        simp [hst, hne, hempty] at hc
    · simp [hst] at hc

/-- The fully reduced shape of a successful run of the route. -/
lemma submit_order_ok_shape (req : OrderSubmissionRequest) (clerk : ClerkUser)
    (intentStatus : String) (commitOk scheduleOk : Bool) (now : Nat)
    (db : DBState) (resp : SubmitResponse) (s' : DBState) (u : DUser)
    (hu : db.users.find? (fun v => v.clerk_id == clerk.sub) = some u)
    (h : submit_order req clerk intentStatus commitOk scheduleOk now db = .ok resp s') :
    resp = { order_number :=
               (submittedOrder req clerk u.email scheduleOk now db.next_order_id
                 (cartOf db u.id)).order_number
             order_id :=
               (submittedOrder req clerk u.email scheduleOk now db.next_order_id
                 (cartOf db u.id)).id
             total :=
               (submittedOrder req clerk u.email scheduleOk now db.next_order_id
                 (cartOf db u.id)).total_price
             confirmation_email_sent :=
               (submittedOrder req clerk u.email scheduleOk now db.next_order_id
                 (cartOf db u.id)).confirmation_email_sent
             customer_email :=
               (submittedOrder req clerk u.email scheduleOk now db.next_order_id
                 (cartOf db u.id)).customer_email } ∧
    s' = { users := db.users
           orders := db.orders ++
             [submittedOrder req clerk u.email scheduleOk now db.next_order_id
               (cartOf db u.id)]
           order_items := db.order_items ++
             submittedItems (cartOf db u.id) db.next_order_id now
           cart_items := db.cart_items.filter (fun ci => ¬(ci.user_id == u.id))
           next_order_id := db.next_order_id + 1 } := by
  have hst := submit_order_ok_status _ _ _ _ _ _ _ _ _ h
  have hco := submit_order_ok_commit _ _ _ _ _ _ _ _ _ h
  have hne := submit_order_ok_cart_nonempty _ _ _ _ _ _ _ _ _ _ hu h
  have hnd := submit_order_ok_no_dup _ _ _ _ _ _ _ _ _ h
  subst hst; subst hco
  have hshape := submitOrderCore_ok_shape req clerk scheduleOk now db u hu hne hnd
  have hcore := submit_order_ok_core _ _ _ _ _ _ _ _ _ h
  rw [hshape] at hcore
  simp only [Except.ok.injEq, Prod.mk.injEq] at hcore
  exact ⟨hcore.1.symm, hcore.2.symm⟩

lemma resolve_eq_chain (clerk : ClerkUser) (dbEmail : String)
    (shipping billing : Option Addr) :
    truthyVal (resolveCustomerEmail clerk dbEmail shipping billing) =
      firstTruthy [clerkIdentityEmail clerk, some dbEmail,
        addrChainEmail shipping, addrChainEmail billing] := by
  have hnone : strTruthy none = false := rfl
  unfold resolveCustomerEmail
  by_cases h0 : strTruthy (clerkIdentityEmail clerk)
  · simp [truthyVal, firstTruthy, h0]
  · by_cases h1 : strTruthy (some dbEmail)
    · simp [truthyVal, firstTruthy, h0, h1]
    · cases shipping with
      | none =>
        cases billing with
        | none => simp [truthyVal, firstTruthy, addrChainEmail, hnone, h0, h1]
        | some b =>
          by_cases h3 : strTruthy (pyOr b.email b.email_address) <;>
            simp [truthyVal, firstTruthy, addrChainEmail, hnone, h0, h1, h3]
      | some a =>
        by_cases h2 : strTruthy (pyOr a.email a.email_address)
        · simp [truthyVal, firstTruthy, addrChainEmail, hnone, h0, h1, h2]
        · cases billing with
          | none => simp [truthyVal, firstTruthy, addrChainEmail, hnone, h0, h1, h2]
          | some b =>
            by_cases h3 : strTruthy (pyOr b.email b.email_address) <;>
              simp [truthyVal, firstTruthy, addrChainEmail, hnone, h0, h1, h2, h3]

lemma listUpdateFirst_map {α β : Type} (p : α → Bool) (f : α → α) (g : α → β)
    (hg : ∀ x, g (f x) = g x) :
    ∀ l : List α, (listUpdateFirst p f l).map g = l.map g := by
  intro l
  induction l with
  | nil => rfl
  | cons x xs ih =>
    unfold listUpdateFirst
    by_cases hp : p x
    · simp [hp, hg]
    · simp [hp, ih]

lemma filter_cartOf_self (db : DBState) (uid : Nat) :
    (db.cart_items.filter (fun ci => ¬(ci.user_id == uid))).filter
      (fun ci => ci.user_id == uid) = [] := by
  induction db.cart_items with
  | nil => rfl
  | cons x xs ih =>
    by_cases hx : x.user_id == uid <;> simp [List.filter, hx, ih]

lemma channels_lookup_email (db : NotifDB) (u : NotifUser) (t : NotificationType)
    (es : Except String String) :
    ∀ cs : List NotificationChannel, NotificationChannel.email ∈ cs →
      ((cs.map (processChannel db u t es)).lookup "email") =
        some (sendEmailNotification es) := by
  intro cs hmem
  induction cs with
  | nil => cases hmem
  | cons c cs ih =>
    cases c with
    | email => simp [processChannel, List.lookup]
    | sms =>
      have hmem' : NotificationChannel.email ∈ cs := by simpa using hmem
      simp [processChannel, List.lookup, ih hmem']
    | push =>
      have hmem' : NotificationChannel.email ∈ cs := by simpa using hmem
      simp [processChannel, List.lookup, ih hmem']
    | in_app =>
      have hmem' : NotificationChannel.email ∈ cs := by simpa using hmem
      simp [processChannel, List.lookup, ih hmem']

/-! ## Concrete fixtures used by witnesses and counterexamples -/

/-- A product priced 2000 cents. -/
def fixProductA : Product :=
  { id := 1, name := "Ring", price := 2000, sku := some "SKU-A",
    description := none, image_url := none }

/-- A product priced 1500 cents. -/
def fixProductB : Product :=
  { id := 2, name := "Chain", price := 1500, sku := none,
    description := none, image_url := none }

/-- A registered user (database id 7, Clerk id `clerk_1`). -/
def fixUser : DUser := { id := 7, clerk_id := "clerk_1", email := "u@example.com" }

/-- A state with a two-line cart for `fixUser` and no orders. -/
def fixDb : DBState :=
  { users := [fixUser]
    orders := []
    order_items := []
    cart_items :=
      [{ id := 1, user_id := 7, product_id := 1, quantity := 2, product := fixProductA },
       { id := 2, user_id := 7, product_id := 2, quantity := 1, product := fixProductB }]
    next_order_id := 1 }

/-- A checkout request referencing payment intent `pi_3ABCdef12345678`. -/
def fixReq : OrderSubmissionRequest :=
  { shipping_address := some
      { first_name := some "A", last_name := some "B", phone := none,
        email := none, email_address := none }
    billing_address := none
    shipping_method := { price := some 15, name := some "Standard", method_id := some "std" }
    gift_options := none
    order_notes := none
    payment_intent_id := "pi_3ABCdef12345678" }

/-- A token payload carrying no email claims. -/
def fixClerk : ClerkUser :=
  { sub := "clerk_1", email := none, email_address := none, emailAddress := none,
    primaryEmailAddress := none, email_addresses := [] }

/-- A fresh cart row used to refill the cart between two submissions. -/
def fixRefill : CartItem :=
  { id := 3, user_id := 7, product_id := 1, quantity := 1, product := fixProductA }

/-! ## Claim C1 -/

/-- C1: submitting the same payment-confirmation token twice cannot
create two Orders.  `submit_order` performs no lookup by
`stripe_payment_intent_id`, but `order_number` is a pure function of the
intent id (`f"ORD-..."` from its last 8 characters) and
`orders.order_number` carries a unique index, so on the second
submission `db.flush()` raises `IntegrityError` before the cart deletion
or commit: the route surfaces a 500, the state is unchanged, and exactly
one Order row with that `stripe_payment_intent_id` remains — for every
second caller, every cart contents at the time of the second call, and
every commit/scheduling behaviour of the second call. -/
theorem C1_second_submission_single_order
    (req req2 : OrderSubmissionRequest) (clerk clerk2 : ClerkUser)
    (scheduleOk commitOk2 scheduleOk2 : Bool) (now now2 : Nat)
    (db : DBState) (resp : SubmitResponse) (s1 : DBState) (u : DUser)
    (newCart : List CartItem)
    (hpid : req2.payment_intent_id = req.payment_intent_id)
    (hfresh : ordersWithIntent db req.payment_intent_id = [])
    (hu : db.users.find? (fun v => v.clerk_id == clerk.sub) = some u)
    (h1 : submit_order req clerk "succeeded" true scheduleOk now db = .ok resp s1) :
    submit_order req2 clerk2 "succeeded" commitOk2 scheduleOk2 now2
        { s1 with cart_items := newCart } =
      .httpError 500 { s1 with cart_items := newCart } ∧
    (ordersWithIntent { s1 with cart_items := newCart }
      req.payment_intent_id).length = 1 := by
  obtain ⟨hr, hs⟩ :=
    submit_order_ok_shape req clerk "succeeded" true scheduleOk now db resp s1 u hu h1
  subst hs
  constructor
  · unfold submit_order submitOrderCore
    cases hfind2 : (List.find? (fun v => v.clerk_id == clerk2.sub) db.users) with
    | none => simp [hfind2]
    | some u2 =>
      have hdup : (db.orders ++
          [submittedOrder req clerk u.email scheduleOk now db.next_order_id
            (cartOf db u.id)]).any
          (fun o => o.order_number == orderNumberOf req2.payment_intent_id) = true := by
        simp [hpid, List.any_append, submittedOrder]
      by_cases hempty : (newCart.filter (fun ci => ci.user_id == u2.id)).isEmpty
      · simp_all [cartOf, hfind2, hdup]
      · simp_all [cartOf, hfind2, hdup]
        by_cases hall : ∀ a ∈ newCart, ¬a.user_id = u2.id
        · rw [if_pos hall]
        · rw [if_neg hall]
  · unfold ordersWithIntent at hfresh ⊢
    simp [List.filter_append, hfresh, submittedOrder]

/-- Witness for C1: the fixture double submission — the cart refilled
between the calls — ends with the second call failing (500) and exactly
one Order row carrying `pi_3ABCdef12345678`. -/
theorem C1_witness :
    ∃ resp s1,
      submit_order fixReq fixClerk "succeeded" true true 100 fixDb = .ok resp s1 ∧
      submit_order fixReq fixClerk "succeeded" true true 200
          { s1 with cart_items := [fixRefill] } =
        .httpError 500 { s1 with cart_items := [fixRefill] } ∧
      (ordersWithIntent { s1 with cart_items := [fixRefill] }
        "pi_3ABCdef12345678").length = 1 := by
  refine ⟨_, _, rfl, ?_, ?_⟩
  · exact (C1_second_submission_single_order fixReq fixReq fixClerk fixClerk
      true true true 100 200 fixDb _ _ fixUser [fixRefill] rfl (by decide)
      (by decide) rfl).1
  · exact (C1_second_submission_single_order fixReq fixReq fixClerk fixClerk
      true true true 100 200 fixDb _ _ fixUser [fixRefill] rfl (by decide)
      (by decide) rfl).2

/-! ## Claim C2 -/

/-- C2 counterexample: with a payment intent in state `requires_action`
(and likewise with an empty cart) the route does fail before any write —
the returned state is the input state — but the surfaced HTTP status is
500, not a 4xx: the 400 `HTTPException` raised inside the body is itself
an `Exception`, caught by the route's blanket `except Exception` handler
and re-raised as `HTTPException(500, ...)`. -/
theorem C2_counterexample :
    submit_order fixReq fixClerk "requires_action" true true 100 fixDb =
      .httpError 500 fixDb ∧
    submit_order fixReq fixClerk "succeeded" true true 100
      { fixDb with cart_items := [] } =
      .httpError 500 { fixDb with cart_items := [] } ∧
    ¬(400 ≤ 500 ∧ 500 < 500) ∧
    submitOrderCore fixReq fixClerk "requires_action" true true 100 fixDb =
      .error .paymentNotSucceeded ∧
    raisedStatus .paymentNotSucceeded = some 400 := by
  exact ⟨by decide, by decide, by decide, rfl, rfl⟩

/-- C2 (amended): if the referenced payment intent's status is not
`succeeded`, or the (found) user's cart is empty, the call fails with an
HTTP error — surfaced as status 500 because the blanket
`except Exception` handler re-wraps the internal 400 `HTTPException` —
and performs no writes: the returned state is the input state, so no
Order row, no OrderItem row, and no cart change. -/
theorem C2_failed_precondition_no_writes
    (req : OrderSubmissionRequest) (clerk : ClerkUser) (intentStatus : String)
    (commitOk scheduleOk : Bool) (now : Nat) (db : DBState)
    (h : intentStatus ≠ "succeeded" ∨
      ∀ u, db.users.find? (fun v => v.clerk_id == clerk.sub) = some u →
        cartOf db u.id = []) :
    submit_order req clerk intentStatus commitOk scheduleOk now db =
      .httpError 500 db := by
  unfold submit_order submitOrderCore
  cases hfind : db.users.find? (fun v => v.clerk_id == clerk.sub) with
  | none => simp
  | some u =>
    cases h with
    | inl hst => simp [hst]
    | inr hcart =>
      have hc := hcart u hfind
      by_cases hst : intentStatus = "succeeded"
      · simp [hst, hc]
      · simp [hst]

/-- Witness for C2: the amended theorem applied to the concrete
`requires_action` run. -/
theorem C2_witness :
    submit_order fixReq fixClerk "requires_action" true true 100 fixDb =
      .httpError 500 fixDb :=
  C2_failed_precondition_no_writes fixReq fixClerk "requires_action" true true
    100 fixDb (Or.inl (by decide))

/-! ## Claim C3 -/

/-- C3: a successful submission writes exactly one Order row and one
OrderItem row per cart line, deletes every cart row of the submitting
user (and only those), and leaves that user's cart empty; the whole
write is one transaction: the same call whose commit fails surfaces an
error and leaves the state — cart included — unchanged. -/
theorem C3_transactional_effects
    (req : OrderSubmissionRequest) (clerk : ClerkUser) (scheduleOk : Bool)
    (now : Nat) (db : DBState) (resp : SubmitResponse) (s' : DBState) (u : DUser)
    (hu : db.users.find? (fun v => v.clerk_id == clerk.sub) = some u)
    (h : submit_order req clerk "succeeded" true scheduleOk now db = .ok resp s') :
    (∃ o, s'.orders = db.orders ++ [o]) ∧
    s'.order_items = db.order_items ++
      submittedItems (cartOf db u.id) db.next_order_id now ∧
    (submittedItems (cartOf db u.id) db.next_order_id now).length =
      (cartOf db u.id).length ∧
    cartOf s' u.id = [] ∧
    s'.cart_items = db.cart_items.filter (fun ci => ¬(ci.user_id == u.id)) ∧
    cartOf db u.id ≠ [] ∧
    submit_order req clerk "succeeded" false scheduleOk now db =
      .httpError 500 db := by
  obtain ⟨hr, hs⟩ :=
    submit_order_ok_shape req clerk "succeeded" true scheduleOk now db resp s' u hu h
  have hne := submit_order_ok_cart_nonempty _ _ _ _ _ _ _ _ _ _ hu h
  have hnd := submit_order_ok_no_dup _ _ _ _ _ _ _ _ _ h
  refine ⟨⟨_, by rw [hs]⟩, by rw [hs], ?_, ?_, by rw [hs], ?_, ?_⟩
  · simp [submittedItems]
  · rw [hs]
    exact filter_cartOf_self db u.id
  · intro hcontra
    rw [hcontra] at hne
    simp at hne
  · unfold submit_order submitOrderCore
    rw [hu]
    simp [hne, hnd]

/-- Witness for C3 on the two-line fixture cart. -/
theorem C3_witness :
    ∃ resp s', submit_order fixReq fixClerk "succeeded" true true 100 fixDb = .ok resp s' ∧
      cartOf s' fixUser.id = [] ∧
      submit_order fixReq fixClerk "succeeded" false true 100 fixDb =
        .httpError 500 fixDb := by
  refine ⟨_, _, rfl, ?_, ?_⟩
  · exact (C3_transactional_effects fixReq fixClerk true 100 fixDb _ _ fixUser
      (by decide) rfl).2.2.2.1
  · exact (C3_transactional_effects fixReq fixClerk true 100 fixDb _ _ fixUser
      (by decide) rfl).2.2.2.2.2.2

/-! ## Claim C4 -/

/-- C4: on success the stored Order satisfies
`subtotal = Σ (server price × quantity)` over the cart lines — computed
from the `products` rows joined through the cart, the request carrying
no total at all — and `total = subtotal + tax + shipping − discount`
(with `discount_amount = 0` and `tax = subtotal · 8/100`); the response
echoes that total. -/
theorem C4_totals_server_side
    (req : OrderSubmissionRequest) (clerk : ClerkUser) (scheduleOk : Bool)
    (now : Nat) (db : DBState) (resp : SubmitResponse) (s' : DBState) (u : DUser)
    (hu : db.users.find? (fun v => v.clerk_id == clerk.sub) = some u)
    (h : submit_order req clerk "succeeded" true scheduleOk now db = .ok resp s') :
    ∃ o, s'.orders = db.orders ++ [o] ∧
      o.subtotal =
        ((((cartOf db u.id).map
          (fun ci => ci.product.price * (ci.quantity : Int))).sum : Int) : ℚ) ∧
      o.tax_amount = o.subtotal * (8 / 100) ∧
      o.shipping_amount = (req.shipping_method.price).getD 0 ∧
      o.discount_amount = 0 ∧
      o.total_price = o.subtotal + o.tax_amount + o.shipping_amount - o.discount_amount ∧
      resp.total = o.total_price := by
  obtain ⟨hr, hs⟩ :=
    submit_order_ok_shape req clerk "succeeded" true scheduleOk now db resp s' u hu h
  refine ⟨submittedOrder req clerk u.email scheduleOk now db.next_order_id
      (cartOf db u.id), by rw [hs], ?_, ?_, ?_, ?_, ?_, ?_⟩
  · rfl
  · rfl
  · rfl
  · rfl
  · show cartSubtotal (cartOf db u.id) + cartSubtotal (cartOf db u.id) * (8 / 100) +
        (req.shipping_method.price).getD 0 =
      cartSubtotal (cartOf db u.id) + cartSubtotal (cartOf db u.id) * (8 / 100) +
        (req.shipping_method.price).getD 0 - 0
    ring
  · rw [hr]

/-- Witness for C4. -/
theorem C4_witness :
    ∃ resp s', submit_order fixReq fixClerk "succeeded" true true 100 fixDb = .ok resp s' ∧
      ∃ o, s'.orders = fixDb.orders ++ [o] ∧
        o.total_price = o.subtotal + o.tax_amount + o.shipping_amount - o.discount_amount := by
  refine ⟨_, _, rfl, ?_⟩
  obtain ⟨o, h1, _, _, _, _, h6, _⟩ :=
    C4_totals_server_side fixReq fixClerk true 100 fixDb _ _ fixUser (by decide) rfl
  exact ⟨o, h1, h6⟩

/-! ## Claim C5 -/

/-- C5: the confirmation email is resolved by the ordered fallback chain
authenticated-identity email → database user email → shipping-address
email → billing-address email → none (first conjunct: the sequential
code equals the chain up to truthiness, and yields exactly the first
truthy candidate); with only a billing email present the resolution is
the billing email (second conjunct); and when nothing truthy resolves
the Order is still created, carrying `confirmation_email_sent = false`
(third conjunct). -/
theorem C5_email_fallback_chain :
    (∀ (clerk : ClerkUser) (dbEmail : String) (shipping billing : Option Addr),
      truthyVal (resolveCustomerEmail clerk dbEmail shipping billing) =
        firstTruthy [clerkIdentityEmail clerk, some dbEmail,
          addrChainEmail shipping, addrChainEmail billing]) ∧
    (∀ (clerk : ClerkUser) (dbEmail : String) (shipping billing : Option Addr)
      (e : String),
      strTruthy (clerkIdentityEmail clerk) = false → dbEmail = "" →
      strTruthy (addrChainEmail shipping) = false →
      addrChainEmail billing = some e → e ≠ "" →
      resolveCustomerEmail clerk dbEmail shipping billing = some e) ∧
    (∀ (req : OrderSubmissionRequest) (clerk : ClerkUser) (scheduleOk : Bool)
      (now : Nat) (db : DBState) (resp : SubmitResponse) (s' : DBState) (u : DUser),
      db.users.find? (fun v => v.clerk_id == clerk.sub) = some u →
      submit_order req clerk "succeeded" true scheduleOk now db = .ok resp s' →
      strTruthy (resolveCustomerEmail clerk u.email req.shipping_address
        req.billing_address) = false →
      resp.confirmation_email_sent = false ∧
      ∃ o, s'.orders = db.orders ++ [o] ∧ o.confirmation_email_sent = false ∧
        o.customer_email =
          resolveCustomerEmail clerk u.email req.shipping_address req.billing_address) := by
  refine ⟨resolve_eq_chain, ?_, ?_⟩
  · intro clerk dbEmail shipping billing e h0 hdb hship hbill he
    have hchain := resolve_eq_chain clerk dbEmail shipping billing
    rw [hbill] at hchain
    subst hdb
    have hdbf : strTruthy (some "") = false := by decide
    have hbe : strTruthy (some e) = true := by simp [strTruthy, he]
    rw [show firstTruthy [clerkIdentityEmail clerk, some "",
        addrChainEmail shipping, some e] = some e by
      simp [firstTruthy, h0, hdbf, hship, hbe]] at hchain
    by_cases hres : strTruthy (resolveCustomerEmail clerk "" shipping billing)
    · simpa [truthyVal, hres] using hchain
    · simp [truthyVal, hres] at hchain
  · intro req clerk scheduleOk now db resp s' u hu h hmail
    obtain ⟨hr, hs⟩ :=
      submit_order_ok_shape req clerk "succeeded" true scheduleOk now db resp s' u hu h
    refine ⟨?_, submittedOrder req clerk u.email scheduleOk now db.next_order_id
        (cartOf db u.id), by rw [hs], ?_, rfl⟩
    · rw [hr]
      show (strTruthy (resolveCustomerEmail clerk u.email req.shipping_address
        req.billing_address) && scheduleOk) = false
      rw [hmail]
      rfl
    · show (strTruthy (resolveCustomerEmail clerk u.email req.shipping_address
        req.billing_address) && scheduleOk) = false
      rw [hmail]
      rfl

/-- A billing address carrying the only email in sight. -/
def fixBillingAddr : Addr :=
  { first_name := none, last_name := none, phone := none,
    email := some "bill@example.com", email_address := none }

/-- `fixUser` with an empty (falsy) stored email. -/
def fixUserNoEmail : DUser := { id := 7, clerk_id := "clerk_1", email := "" }

/-- `fixDb` with the email-less user. -/
def fixDbNoEmail : DBState := { fixDb with users := [fixUserNoEmail] }

/-- Witness for C5: the billing-only scenario resolves to the billing
email, and a run with no truthy email anywhere still creates the Order
with `confirmation_email_sent = false`. -/
theorem C5_witness :
    resolveCustomerEmail fixClerk "" none (some fixBillingAddr) =
      some "bill@example.com" ∧
    ∃ resp s',
      submit_order fixReq fixClerk "succeeded" true true 100 fixDbNoEmail = .ok resp s' ∧
      resp.confirmation_email_sent = false := by
  constructor
  · exact C5_email_fallback_chain.2.1 fixClerk "" none (some fixBillingAddr)
      "bill@example.com" (by decide) rfl (by decide) (by decide) (by decide)
  · refine ⟨_, _, rfl, ?_⟩
    exact (C5_email_fallback_chain.2.2 fixReq fixClerk true 100 fixDbNoEmail _ _
      fixUserNoEmail (by decide) rfl (by decide)).1

/-! ## Claim C6 -/

/-- A stored row whose email document is non-empty but lacks the
`order_confirmations` key (the reachable shape after an update whose
payload omitted the key: the stored JSON is replaced wholesale). -/
def fixPrefRowNoConfirm : PrefRow :=
  { email_notifications := some [("order_updates", true)]
    marketing_notifications := none
    account_notifications := none
    sms_notifications := none
    sms_phone_number := none
    quiet_hours := none }

/-- C6 counterexample: for the stored row whose `email_notifications`
document lacks `order_confirmations`, the claim demands `true` twice
over — the system default for the pair is `true`, and the pair is on the
required allow-list — yet `check_notification_allowed` returns `false`:
with a truthy stored document it answers `.get(key, False)` on that
document alone, never falling back to per-key defaults and never
consulting `REQUIRED_NOTIFICATIONS`. -/
theorem C6_counterexample :
    check_notification_allowed [(1, fixPrefRowNoConfirm)] 1 "order_confirmations"
      .email_notifications = false ∧
    ((defaultPreferences .email_notifications).lookup "order_confirmations").getD
      false = true ∧
    isRequiredPair .email_notifications "order_confirmations" = true := by
  exact ⟨by decide, by decide, by decide⟩

/-- C6 (amended): the resolver returns the stored boolean when the
user's row has the key set; when the row exists and its category
document is truthy but lacks the key it returns `false` (not the system
default); the system default for the (category, key) pair — with
unknown keys `false` — is used only when there is no row at all or the
stored category document is `NULL`/empty; and the required allow-list
is not consulted by the resolver (it is enforced only by write-time
validation). -/
theorem C6_resolver_behavior :
    (∀ (prefs : PrefTable) (uid : Nat) (p : PrefRow) (cat : PrefCategory)
      (key : String) (d : List (String × Bool)) (b : Bool),
      prefs.lookup uid = some p → truthyDict (categoryPrefs p cat) = some d →
      d.lookup key = some b →
      check_notification_allowed prefs uid key cat = b) ∧
    (∀ (prefs : PrefTable) (uid : Nat) (p : PrefRow) (cat : PrefCategory)
      (key : String) (d : List (String × Bool)),
      prefs.lookup uid = some p → truthyDict (categoryPrefs p cat) = some d →
      d.lookup key = none →
      check_notification_allowed prefs uid key cat = false) ∧
    (∀ (prefs : PrefTable) (uid : Nat) (cat : PrefCategory) (key : String),
      prefs.lookup uid = none →
      check_notification_allowed prefs uid key cat =
        ((defaultPreferences cat).lookup key).getD false) ∧
    (∀ (prefs : PrefTable) (uid : Nat) (p : PrefRow) (cat : PrefCategory)
      (key : String),
      prefs.lookup uid = some p → truthyDict (categoryPrefs p cat) = none →
      check_notification_allowed prefs uid key cat =
        ((defaultPreferences cat).lookup key).getD false) := by
  refine ⟨?_, ?_, ?_, ?_⟩
  · intro prefs uid p cat key d b h1 h2 h3
    unfold check_notification_allowed
    simp [h1, h2, h3]
  · intro prefs uid p cat key d h1 h2 h3
    unfold check_notification_allowed
    simp [h1, h2, h3]
  · intro prefs uid cat key h1
    unfold check_notification_allowed
    simp [h1]
  · intro prefs uid p cat key h1 h2
    unfold check_notification_allowed
    simp [h1, h2]

/-- Witness for C6 (amended): a stored `false` is returned as stored; a
missing key on a truthy document yields `false`; an absent row yields
the default. -/
theorem C6_witness :
    check_notification_allowed
      [(1, { fixPrefRowNoConfirm with
             marketing_notifications := some [("price_drops", false)] })]
      1 "price_drops" .marketing_notifications = false ∧
    check_notification_allowed [(1, fixPrefRowNoConfirm)] 1 "shipping_notifications"
      .email_notifications = false ∧
    check_notification_allowed [] 1 "order_confirmations"
      .email_notifications = true := by
  refine ⟨?_, ?_, ?_⟩
  · exact C6_resolver_behavior.1 _ 1 _ .marketing_notifications "price_drops"
      [("price_drops", false)] false rfl rfl rfl
  · exact C6_resolver_behavior.2.1 _ 1 _ .email_notifications
      "shipping_notifications" [("order_updates", true)] rfl rfl rfl
  · exact C6_resolver_behavior.2.2.1 [] 1 .email_notifications
      "order_confirmations" rfl

/-! ## Claim C7 -/

/-- A row with quiet hours 22:00-08:00 enabled. -/
def fixQuietRow : PrefRow :=
  { email_notifications := none
    marketing_notifications := none
    account_notifications := none
    sms_notifications := none
    sms_phone_number := none
    quiet_hours := some
      { enabled := some true, start_time := some "22:00", end_time := some "08:00" } }

/-- The same row with a malformed start time. -/
def fixBadQuietRow : PrefRow :=
  { fixQuietRow with
    quiet_hours := some
      { enabled := some true, start_time := some "10pm", end_time := some "08:00" } }

/-- C7: with quiet hours enabled and both stored times parsing as HH:MM,
a window whose start exceeds its end spans midnight (active iff the
current time is after the start or before the end) and otherwise is a
same-day window (active iff between start and end inclusive); any
parse failure — malformed string, out-of-range field — yields `false`
(fail open).  Concretely, for 22:00-08:00 the checks at 23:30 and 03:00
are active and the check at 12:00 is not, and a malformed start time is
never active. -/
theorem C7_quiet_hours :
    (∀ (prefs : PrefTable) (uid : Nat) (p : PrefRow) (q : QuietHoursDict)
      (sh sm eh em nowSecs : Nat),
      prefs.lookup uid = some p → p.quiet_hours = some q →
      q.enabled.getD false = true →
      parseClockTime (q.start_time.getD "22:00") = some (sh, sm) →
      parseClockTime (q.end_time.getD "08:00") = some (eh, em) →
      (eh * 3600 + em * 60 < sh * 3600 + sm * 60 →
        is_quiet_hours_active prefs uid nowSecs =
          (decide (sh * 3600 + sm * 60 ≤ nowSecs) ||
           decide (nowSecs ≤ eh * 3600 + em * 60))) ∧
      (sh * 3600 + sm * 60 ≤ eh * 3600 + em * 60 →
        is_quiet_hours_active prefs uid nowSecs =
          (decide (sh * 3600 + sm * 60 ≤ nowSecs) &&
           decide (nowSecs ≤ eh * 3600 + em * 60)))) ∧
    (∀ (prefs : PrefTable) (uid : Nat) (p : PrefRow) (q : QuietHoursDict)
      (nowSecs : Nat),
      prefs.lookup uid = some p → p.quiet_hours = some q →
      (parseClockTime (q.start_time.getD "22:00") = none ∨
       parseClockTime (q.end_time.getD "08:00") = none) →
      is_quiet_hours_active prefs uid nowSecs = false) ∧
    (is_quiet_hours_active [(1, fixQuietRow)] 1 (23 * 3600 + 30 * 60) = true ∧
     is_quiet_hours_active [(1, fixQuietRow)] 1 (3 * 3600) = true ∧
     is_quiet_hours_active [(1, fixQuietRow)] 1 (12 * 3600) = false ∧
     parseClockTime "10pm" = none ∧
     is_quiet_hours_active [(1, fixBadQuietRow)] 1 (23 * 3600 + 30 * 60) = false) := by
  refine ⟨?_, ?_, by decide, by decide, by decide, by decide, by decide⟩
  · intro prefs uid p q sh sm eh em nowSecs h1 h2 h3 h4 h5
    unfold is_quiet_hours_active
    constructor
    · intro hlt
      simp [h1, h2, h3, h4, h5, hlt]
    · intro hle
      have hnlt : ¬(eh * 3600 + em * 60 < sh * 3600 + sm * 60) := by omega
      simp [h1, h2, h3, h4, h5, hnlt]
  · intro prefs uid p q nowSecs h1 h2 h3
    unfold is_quiet_hours_active
    by_cases hen : q.enabled.getD false
    · cases h3 with
      | inl hs =>
        cases hpe : parseClockTime (q.end_time.getD "08:00") <;>
          simp [h1, h2, hen, hs, hpe]
      | inr he =>
        cases hps : parseClockTime (q.start_time.getD "22:00") <;>
          simp [h1, h2, hen, he, hps]
    · simp [h1, h2, hen]

/-- Witness for C7: the general clauses applied to the 22:00-08:00
fixture at 23:30 and to the malformed fixture. -/
theorem C7_witness :
    is_quiet_hours_active [(1, fixQuietRow)] 1 (23 * 3600 + 30 * 60) =
      (decide (22 * 3600 + 0 * 60 ≤ 23 * 3600 + 30 * 60) ||
       decide (23 * 3600 + 30 * 60 ≤ 8 * 3600 + 0 * 60)) ∧
    is_quiet_hours_active [(1, fixBadQuietRow)] 1 (12 * 3600) = false := by
  constructor
  · exact (C7_quiet_hours.1 [(1, fixQuietRow)] 1 fixQuietRow
      { enabled := some true, start_time := some "22:00", end_time := some "08:00" }
      22 0 8 0 (23 * 3600 + 30 * 60) rfl rfl (by decide) (by decide) (by decide)).1
      (by decide)
  · exact C7_quiet_hours.2.1 [(1, fixBadQuietRow)] 1 fixBadQuietRow
      { enabled := some true, start_time := some "10pm", end_time := some "08:00" }
      (12 * 3600) rfl rfl (Or.inl (by decide))

/-! ## Claim C8 -/

/-- C8: notification failure is isolated from the primary operation.
First conjunct: whenever the transactional part of `submit_order` can
succeed (user found, cart non-empty, no Order row already holding the
derived `order_number` — the unique-index precondition of the flush), a
raising email-scheduling step (`scheduleOk = false`) still yields a
success response, the Order row persists, and the failure is recorded
as `confirmation_email_sent = false` on both the row and the response.
Second conjunct: in `send_notification`, an email-provider exception is
caught per channel and surfaces only as the `"email"` entry of the
returned result map — the function still returns the success dictionary. -/
theorem C8_notification_failures_isolated :
    (∀ (req : OrderSubmissionRequest) (clerk : ClerkUser) (now : Nat)
      (db : DBState) (u : DUser),
      db.users.find? (fun v => v.clerk_id == clerk.sub) = some u →
      (cartOf db u.id).isEmpty = false →
      db.orders.any
        (fun o => o.order_number == orderNumberOf req.payment_intent_id) = false →
      ∃ resp s', submit_order req clerk "succeeded" true false now db = .ok resp s' ∧
        resp.confirmation_email_sent = false ∧
        ∃ o, s'.orders = db.orders ++ [o] ∧ o.confirmation_email_sent = false) ∧
    (∀ (db : NotifDB) (uid : Nat) (u : NotifUser) (t : NotificationType)
      (override : Bool) (force : Option (List NotificationChannel))
      (nowSecs : Nat) (e : String),
      db.users.find? (fun v => v.id == uid) = some u →
      (override = true ∨ (notificationMapping t).required = true) →
      NotificationChannel.email ∈ channelsToUse force (notificationMapping t) →
      ∃ results,
        send_notification db uid t override force nowSecs (.error e) = .sent results ∧
        results.lookup "email" =
          some (.failed ("Email delivery failed: " ++ e))) := by
  constructor
  · intro req clerk now db u hu hne hnd
    have hshape := submitOrderCore_ok_shape req clerk false now db u hu hne hnd
    unfold submit_order
    rw [hshape]
    refine ⟨_, _, rfl, ?_, ?_⟩
    · show (strTruthy (resolveCustomerEmail clerk u.email req.shipping_address
        req.billing_address) && false) = false
      simp
    · refine ⟨submittedOrder req clerk u.email false now db.next_order_id
        (cartOf db u.id), rfl, ?_⟩
      show (strTruthy (resolveCustomerEmail clerk u.email req.shipping_address
        req.billing_address) && false) = false
      simp
  · intro db uid u t override force nowSecs e hu hskip hmem
    cases hskip with
    | inl h =>
      subst h
      refine ⟨_, ?_, channels_lookup_email db u t (.error e) _ hmem⟩
      simp [send_notification, hu]
    | inr h =>
      refine ⟨_, ?_, channels_lookup_email db u t (.error e) _ hmem⟩
      simp [send_notification, hu, h]

/-- The notification-side view of `fixUser`, with no preference row. -/
def fixNotifDb : NotifDB :=
  { users := [{ id := 7, email := "u@example.com", first_name := none,
                last_name := none }]
    prefs := [] }

/-- Witness for C8: the failing-scheduler run over the fixture cart, and
a failing email provider on a required order confirmation. -/
theorem C8_witness :
    (∃ resp s',
      submit_order fixReq fixClerk "succeeded" true false 100 fixDb = .ok resp s' ∧
      resp.confirmation_email_sent = false ∧
      ∃ o, s'.orders = fixDb.orders ++ [o] ∧ o.confirmation_email_sent = false) ∧
    (∃ results,
      send_notification fixNotifDb 7 .order_confirmation false none 0
        (.error "provider down") = .sent results ∧
      results.lookup "email" =
        some (.failed ("Email delivery failed: " ++ "provider down"))) := by
  constructor
  · exact C8_notification_failures_isolated.1 fixReq fixClerk 100 fixDb fixUser
      (by decide) (by decide) (by decide)
  · exact C8_notification_failures_isolated.2 _ 7 _ .order_confirmation false none
      0 "provider down" rfl (Or.inr (by decide)) (by decide)

/-! ## Claim C9 -/

lemma listUpdateFirst_map_found {α β : Type} (p : α → Bool) (f : α → α) (g : α → β)
    (l : List α) (o : α) (hfind : l.find? p = some o) (hg : g (f o) = g o) :
    (listUpdateFirst p f l).map g = l.map g := by
  induction l with
  | nil => simp at hfind
  | cons x xs ih =>
    by_cases hp : p x
    · rw [List.find?_cons_of_pos _ hp] at hfind
      obtain rfl : x = o := by simpa using hfind
      unfold listUpdateFirst
      simp [hp, hg]
    · rw [List.find?_cons_of_neg _ hp] at hfind
      unfold listUpdateFirst
      simp [hp, ih hfind]

/-- An order sitting in `processing` with no lifecycle stamps yet. -/
def fixOrderProcessing : Order :=
  { id := 41, order_number := "JC-20250101-AAAA", user_id := some "clerk_1",
    total_price := 0, status := "processing", created_at := 0,
    customer_first_name := none, customer_last_name := none,
    customer_email := none, customer_phone := none,
    payment_status := "completed", subtotal := 0, tax_amount := 0,
    shipping_amount := 0, discount_amount := 0, currency := "USD",
    shipping_address := none, billing_address := none,
    shipping_method_id := none, shipping_method_name := none,
    stripe_payment_intent_id := none, order_notes := none,
    is_gift := false, gift_message := none, gift_wrapping := false,
    updated_at := 0, shipped_at := none, delivered_at := none,
    confirmation_email_sent := false }

/-- A one-order table. -/
def fixOrderTable : OrderTable := { orders := [fixOrderProcessing], history := [] }

/-- C9 counterexample: the admin PATCH route — the endpoint that
performs status transitions — moves the fixture order from `processing`
to `shipped` yet leaves `shipped_at` as `NULL`: it writes only `status`
and `updated_at`.  Only the never-called helper
`models/order.py update_order_status` stamps the timestamp, as the last
conjuncts evaluate. -/
theorem C9_counterexample :
    (∃ t', admin_update_order_status fixOrderTable 41 "shipped" 500 =
        .ok "processing" "shipped" t' ∧
      t'.orders.map (fun o => o.shipped_at) = [none]) ∧
    (∃ o', (update_order_status fixOrderTable 41 "shipped" "admin" none 500).2 =
        some o' ∧ o'.shipped_at = some 500) := by
  exact ⟨⟨_, rfl, by decide⟩, ⟨_, rfl, by decide⟩⟩

/-- C9 (amended): the model-level helper `update_order_status` behaves
as the claim says — on an actual change it writes the new status, stamps
`updated_at`, stamps `shipped_at` on entering `shipped` and
`delivered_at` on entering `delivered`, and leaves both untouched for
any other target status.  The admin PATCH route, however, writes only
the new status and `updated_at`: it preserves `shipped_at` and
`delivered_at` of every order for every target status — including
`shipped` and `delivered` — and no route calls the stamping helper. -/
theorem C9_status_stamping :
    (∀ (t : OrderTable) (oid : Nat) (st cb : String) (r : Option String)
      (now : Nat) (o : Order) (t' : OrderTable) (o' : Order),
      t.orders.find? (fun x => x.id == oid) = some o →
      o.status ≠ st →
      update_order_status t oid st cb r now = (t', some o') →
      o'.status = st ∧ o'.updated_at = now ∧
      (st = "shipped" → o'.shipped_at = some now) ∧
      (st = "delivered" → o'.delivered_at = some now) ∧
      (st ≠ "shipped" → o'.shipped_at = o.shipped_at) ∧
      (st ≠ "delivered" → o'.delivered_at = o.delivered_at)) ∧
    (∀ (t : OrderTable) (oid : Nat) (st : String) (now : Nat)
      (old nw : String) (t' : OrderTable),
      admin_update_order_status t oid st now = .ok old nw t' →
      nw = st ∧
      t'.orders.map (fun o => (o.shipped_at, o.delivered_at)) =
        t.orders.map (fun o => (o.shipped_at, o.delivered_at))) := by
  constructor
  · intro t oid st cb r now o t' o' h1 h2 h3
    unfold update_order_status at h3
    rw [h1] at h3
    simp only [h2, if_true, ne_eq, not_false_eq_true, if_pos, Prod.mk.injEq,
      Option.some.injEq] at h3
    obtain ⟨ht, ho⟩ := h3
    subst ho
    refine ⟨rfl, rfl, ?_, ?_, ?_, ?_⟩
    · intro hst; simp [hst]
    · intro hst; simp [hst]
    · intro hst; simp [hst]
    · intro hst; simp [hst]
  · intro t oid st now old nw t' h
    unfold admin_update_order_status at h
    cases hfind : t.orders.find? (fun x => x.id == oid) with
    | none => rw [hfind] at h; simp at h
    | some o =>
      rw [hfind] at h
      simp only [AdminUpdateOutcome.ok.injEq] at h
      obtain ⟨hold, hnw, ht⟩ := h
      subst ht
      refine ⟨hnw.symm, ?_⟩
      exact listUpdateFirst_map_found _ _ _ _ o hfind rfl

/-- Witness for C9 (amended): both clauses applied to the fixture order,
transitioning to `shipped`. -/
theorem C9_witness :
    (∃ t' o', update_order_status fixOrderTable 41 "shipped" "admin" none 500 =
        (t', some o') ∧ o'.shipped_at = some 500 ∧ o'.status = "shipped") ∧
    (∃ t', admin_update_order_status fixOrderTable 41 "shipped" 500 =
        .ok "processing" "shipped" t' ∧
      t'.orders.map (fun o => (o.shipped_at, o.delivered_at)) =
        fixOrderTable.orders.map (fun o => (o.shipped_at, o.delivered_at))) := by
  constructor
  · refine ⟨_, _, rfl, ?_, ?_⟩
    · exact (C9_status_stamping.1 fixOrderTable 41 "shipped" "admin" none 500
        fixOrderProcessing _ _ rfl (by decide) rfl).2.2.1 rfl
    · exact (C9_status_stamping.1 fixOrderTable 41 "shipped" "admin" none 500
        fixOrderProcessing _ _ rfl (by decide) rfl).1
  · refine ⟨_, rfl, ?_⟩
    exact (C9_status_stamping.2 fixOrderTable 41 "shipped" 500 "processing"
      "shipped" _ rfl).2

/-! ## Claim C10 -/

/-- C10: in the static mapping a notification type is `required` exactly
when its priority is HIGH or CRITICAL (first conjunct); the dispatch
path therefore never skips or delays a required type, for any override
flag, preferences, or clock (second conjunct); a non-required type
dispatched without `override_preferences` is skipped when the resolver
forbids it and delayed when quiet hours are active for its non-HIGH,
non-CRITICAL priority (third conjunct); and any delayed outcome really
was a non-required, non-overridden, non-HIGH, non-CRITICAL dispatch
(fourth conjunct). -/
theorem C10_required_iff_high_priority :
    (∀ t : NotificationType, (notificationMapping t).required = true ↔
      ((notificationMapping t).priority = .high ∨
       (notificationMapping t).priority = .critical)) ∧
    (∀ (db : NotifDB) (uid : Nat) (t : NotificationType) (override : Bool)
      (force : Option (List NotificationChannel)) (nowSecs : Nat)
      (es : Except String String) (m : String),
      (notificationMapping t).required = true →
      send_notification db uid t override force nowSecs es ≠ .skipped m ∧
      send_notification db uid t override force nowSecs es ≠ .delayed m) ∧
    (∀ (db : NotifDB) (uid : Nat) (u : NotifUser) (t : NotificationType)
      (force : Option (List NotificationChannel)) (nowSecs : Nat)
      (es : Except String String),
      db.users.find? (fun v => v.id == uid) = some u →
      (notificationMapping t).required = false →
      (check_notification_allowed db.prefs uid (notificationMapping t).key
          (notificationMapping t).category = false →
        send_notification db uid t false force nowSecs es =
          .skipped "User preferences disabled this notification") ∧
      (check_notification_allowed db.prefs uid (notificationMapping t).key
          (notificationMapping t).category = true →
        is_quiet_hours_active db.prefs uid nowSecs = true →
        (notificationMapping t).priority ≠ .high →
        (notificationMapping t).priority ≠ .critical →
        send_notification db uid t false force nowSecs es =
          .delayed "Notification delayed due to quiet hours")) ∧
    (∀ (db : NotifDB) (uid : Nat) (t : NotificationType) (override : Bool)
      (force : Option (List NotificationChannel)) (nowSecs : Nat)
      (es : Except String String) (m : String),
      send_notification db uid t override force nowSecs es = .delayed m →
      (notificationMapping t).priority ≠ .high ∧
      (notificationMapping t).priority ≠ .critical ∧
      (notificationMapping t).required = false ∧ override = false) := by
  refine ⟨by decide, ?_, ?_, ?_⟩
  · intro db uid t override force nowSecs es m hreq
    cases hfind : db.users.find? (fun v => v.id == uid) with
    | none =>
      constructor <;> · simp [send_notification, hfind]
    | some u =>
      constructor <;> · simp [send_notification, hfind, hreq]
  · intro db uid u t force nowSecs es hfind hreq
    constructor
    · intro hcheck
      simp [send_notification, hfind, hreq, hcheck]
    · intro hcheck hquiet hhigh hcrit
      simp [send_notification, hfind, hreq, hcheck, hquiet, hhigh, hcrit]
  · intro db uid t override force nowSecs es m h
    cases hfind : db.users.find? (fun v => v.id == uid) with
    | none => simp [send_notification, hfind] at h
    | some u =>
      by_cases hov : override = true
      · simp [send_notification, hfind, hov] at h
      · by_cases hreq : (notificationMapping t).required = true
        · simp [send_notification, hfind, hreq] at h
        · by_cases hcheck : check_notification_allowed db.prefs uid
            (notificationMapping t).key (notificationMapping t).category = true
          · by_cases hq : is_quiet_hours_active db.prefs uid nowSecs = true ∧
              (notificationMapping t).priority ≠ .high ∧
              (notificationMapping t).priority ≠ .critical
            · exact ⟨hq.2.1, hq.2.2, by simpa using hreq, by simpa using hov⟩
            · simp [send_notification, hfind, hov, hreq, hcheck, hq] at h
          · simp [send_notification, hfind, hov, hreq, hcheck] at h

/-- The notification database with the quiet-hours fixture row. -/
def fixNotifDbQuiet : NotifDB :=
  { users := [{ id := 7, email := "u@example.com", first_name := none,
                last_name := none }]
    prefs := [(7, fixQuietRow)] }

/-- Witness for C10: a required type is never skipped or delayed for the
fixture user; a non-required `profile_update` is skipped by its stored
(default) preference; a non-required `order_update` is delayed inside
quiet hours and that delay entails its MEDIUM priority. -/
theorem C10_witness :
    (send_notification fixNotifDb 7 .order_confirmation false none 0
        (.ok "id1") ≠ .skipped "User preferences disabled this notification" ∧
     send_notification fixNotifDb 7 .order_confirmation false none 0
        (.ok "id1") ≠ .delayed "Notification delayed due to quiet hours") ∧
    send_notification fixNotifDb 7 .profile_update false none 0 (.ok "id1") =
      .skipped "User preferences disabled this notification" ∧
    send_notification fixNotifDbQuiet 7 .order_update false none
      (23 * 3600 + 30 * 60) (.ok "id1") =
      .delayed "Notification delayed due to quiet hours" ∧
    (notificationMapping .order_update).priority ≠ .high := by
  refine ⟨?_, ?_, ?_, ?_⟩
  · exact ⟨(C10_required_iff_high_priority.2.1 fixNotifDb 7 .order_confirmation
        false none 0 (.ok "id1") "User preferences disabled this notification"
        (by decide)).1,
      (C10_required_iff_high_priority.2.1 fixNotifDb 7 .order_confirmation
        false none 0 (.ok "id1") "Notification delayed due to quiet hours"
        (by decide)).2⟩
  · exact (C10_required_iff_high_priority.2.2.1 fixNotifDb 7 _ .profile_update
      none 0 (.ok "id1") rfl (by decide)).1 (by decide)
  · exact (C10_required_iff_high_priority.2.2.1 fixNotifDbQuiet 7 _ .order_update
      none (23 * 3600 + 30 * 60) (.ok "id1") rfl (by decide)).2
      (by decide) (by decide) (by decide) (by decide)
  · exact (C10_required_iff_high_priority.2.2.2 fixNotifDbQuiet 7 .order_update
      false none (23 * 3600 + 30 * 60) (.ok "id1")
      "Notification delayed due to quiet hours"
      ((C10_required_iff_high_priority.2.2.1 fixNotifDbQuiet 7
        { id := 7, email := "u@example.com", first_name := none, last_name := none }
        .order_update none (23 * 3600 + 30 * 60) (.ok "id1") rfl (by decide)).2
        (by decide) (by decide) (by decide) (by decide))).1

end JasonCo
